import Mathlib

/-!
Shallow embedding of `src/operator.py` of text-mesh-creator, a Blender add-on
that generates 3D meshes from text and exports them as FBX files.

Host-delegated operations (font loading, FBX export, mesh separation, the
geometry of each created object) are modelled by an oracle structure `Host`;
all side effects on the host scene are recorded as an explicit `Event` trace.
Machine reals are modelled by `ℚ` (the arithmetic in the source is exact on
the rationals involved in the claims).
-/

/-- A 3-component vector, mirroring `mathutils.Vector` as used in the source. -/
structure Vec3 where
  x : ℚ
  y : ℚ
  z : ℚ
deriving DecidableEq

def Vec3.zero : Vec3 := ⟨0, 0, 0⟩

def Vec3.add (a b : Vec3) : Vec3 := ⟨a.x + b.x, a.y + b.y, a.z + b.z⟩

def Vec3.smul (q : ℚ) (v : Vec3) : Vec3 := ⟨q * v.x, q * v.y, q * v.z⟩

/-- An affine transform: the effective content of a Blender 4x4 `matrix_world`
(3x3 linear part plus translation), applied to 3-vectors as `M @ v` does. -/
structure Affine where
  m00 : ℚ
  m01 : ℚ
  m02 : ℚ
  m10 : ℚ
  m11 : ℚ
  m12 : ℚ
  m20 : ℚ
  m21 : ℚ
  m22 : ℚ
  tx : ℚ
  ty : ℚ
  tz : ℚ
deriving DecidableEq

def Affine.apply (M : Affine) (v : Vec3) : Vec3 :=
  ⟨M.m00 * v.x + M.m01 * v.y + M.m02 * v.z + M.tx,
   M.m10 * v.x + M.m11 * v.y + M.m12 * v.z + M.ty,
   M.m20 * v.x + M.m21 * v.y + M.m22 * v.z + M.tz⟩

/-- A scene object handle: identity plus the geometric data the source reads
(`bound_box`, the 8 bounding-box corners, and `matrix_world`). -/
structure Obj where
  id : ℕ
  bound_box : List Vec3
  matrix_world : Affine
deriving DecidableEq

/-- Separator mode enumeration of `props.separate_by`
(none / by-character / space / tab per the configuration surface). -/
inductive SeparateBy where
  | CHARACTER
  | NONE
  | SPACE
  | TAB
deriving DecidableEq

/-- The configuration properties read by the operator
(`TextMeshCreatorProperties`), with the fields `operator.py` accesses. -/
structure TextMeshCreatorProperties where
  strings : List Char
  separate_by : SeparateBy
  font_path : List Char
  is_preview : Bool
  thickness : ℚ
  horizontal_alignment : String
  vertical_alignment : String
  character_spacing : ℚ
  word_spacing : ℚ
  rotation_x : ℚ
  rotation_y : ℚ
  rotation_z : ℚ
  scale_x : ℚ
  scale_y : ℚ
  scale_z : ℚ
  center_to_origin : Bool
  use_decimate : Bool
  decimate_ratio : ℚ
  separate_by_loose_parts : Bool
  export_path : String
  increment_from : Int

/-- Observable side effects on the host scene, in the order the source
performs them. -/
inductive Event where
  | newCurve (text : List Char)
  | linkObj (id : ℕ)
  | unlinkObj (id : ℕ)
  | originSet (id : ℕ)
  | resetLocation (id : ℕ)
  | decimate (id : ℕ) (ratio : ℚ)
  | meshSeparate (id : ℕ)
  | solidify (id : ℕ) (thickness : ℚ)
  | exportFile (dirpath : String) (filename : String) (ids : List ℕ)
  | printError (filename : String)
  | deleteObjs (ids : List ℕ)
  | reportError (msg : String)
deriving DecidableEq

/-- Oracle for the host application: whether `bpy.data.fonts.load` succeeds,
whether `bpy.ops.export_scene.fbx` succeeds for a given filename, the object
each text unit evaluates to, the id of the intermediate curve object, and the
sibling objects `bpy.ops.mesh.separate` creates for a given object. -/
structure Host where
  fontLoadOk : Bool
  exportOk : String → Bool
  meshObj : List Char → Obj
  curveId : List Char → ℕ
  siblings : ℕ → List Obj

/-- Python exceptions the source can raise that are not caught. -/
inductive PyError where
  | indexError
  | unboundLocalError
deriving DecidableEq

/-- Result of `execute`: Blender status with the event trace, or an uncaught
Python exception. `finished` also carries the final value of `number`. -/
inductive RunResult where
  | finished (number : Int) (trace : List Event)
  | cancelled (trace : List Event)
  | error (e : PyError) (trace : List Event)
deriving DecidableEq

def traceOf : RunResult → List Event
  | RunResult.finished _ t => t
  | RunResult.cancelled t => t
  | RunResult.error _ t => t

/-- Python whitespace characters stripped by `str.strip()` (ASCII range). -/
def isPySpace (c : Char) : Bool :=
  c = ' ' || c = '\t' || c = '\n' || c = '\r' || c = '\x0b' || c = '\x0c'

/-- Model of Python `str.strip()`. -/
def pyStrip (s : List Char) : List Char :=
  ((s.dropWhile isPySpace).reverse.dropWhile isPySpace).reverse

/-- `TextMeshCreatorOperation.separators` (operator.py lines 20-24): the
separator literal for each non-CHARACTER, non-NONE mode. -/
def separators : SeparateBy → Option Char
  | SeparateBy.SPACE => some ' '
  | SeparateBy.TAB => some '\t'
  | _ => none

/-- Input partitioning (operator.py lines 171-178): `list(s)` for CHARACTER,
`s.split(sep)` for SPACE/TAB (Python single-char `str.split`, which keeps
empty units, is `List.splitOn`), `[s]` for NONE. -/
def partition (mode : SeparateBy) (strings : List Char) : List (List Char) :=
  match mode with
  | SeparateBy.CHARACTER => strings.map (fun c => [c])
  | SeparateBy.NONE => [strings]
  | SeparateBy.SPACE => strings.splitOn ' '
  | SeparateBy.TAB => strings.splitOn '\t'

/-- Python `math.isclose a b rel_tol=1e-5` with the default `abs_tol=0`:
`abs (a-b) <= max (rel_tol * max (abs a) (abs b)) abs_tol`. -/
def mathIsclose (a b : ℚ) : Bool :=
  decide (|a - b| ≤ max ((1 / 100000) * max |a| |b|) 0)

/-- Bounding-box center as computed at operator.py line 85:
`0.125 * sum(Vector(bound) for bound in object.bound_box)`. -/
def boundCenter (o : Obj) : Vec3 :=
  Vec3.smul (1 / 8) (o.bound_box.foldl Vec3.add Vec3.zero)

/-- World-space origin of a candidate (operator.py line 86):
`object.matrix_world @ center`. -/
def originOf (o : Obj) : Vec3 :=
  Affine.apply o.matrix_world (boundCenter o)

/-- The loop body of `separate_by_loose_parts` (operator.py lines 81-100):
for each candidate, unlink it if its origin's y is not close to `extrude`,
otherwise add a solidify modifier of thickness `extrude * 2`, apply it, and
keep the candidate. Returns the event trace and the kept objects. -/
def processCandidates (extrude : ℚ) : List Obj → List Event × List Obj
  | [] => ([], [])
  | o :: rest =>
    let r := processCandidates extrude rest
    if mathIsclose (originOf o).y extrude then
      (Event.solidify o.id (extrude * 2) :: r.1, o :: r.2)
    else
      (Event.unlinkObj o.id :: r.1, r.2)

/-- `TextMeshCreatorOperation.separate_by_loose_parts` (operator.py lines
73-102): separate the object into loose parts (the object itself plus the
host-created siblings), then filter and solidify via `processCandidates`. -/
def separate_by_loose_parts (host : Host) (object : Obj) (extrude : ℚ) :
    List Event × List Obj :=
  let separated_objects := object :: host.siblings object.id
  let r := processCandidates extrude separated_objects
  (Event.meshSeparate object.id :: r.1, r.2)

/-- Export filename (operator.py line 30): `"%s-%s.fbx" % (number, name)`. -/
def fbxFilename (number : Int) (name : String) : String :=
  toString number ++ "-" ++ name ++ ".fbx"

/-- `TextMeshCreatorOperation.export_object` (operator.py lines 26-71):
try: export FBX, return number + 1; except RuntimeError: print it, return
number; finally: delete the given objects. The `finally` block runs in both
branches, so `deleteObjs` appears in both traces. -/
def export_object (host : Host) (number : Int) (name : String) (dirpath : String)
    (object : List Obj) : Int × List Event :=
  let filename := fbxFilename number name
  let ids := object.map Obj.id
  if host.exportOk filename then
    (number + 1, [Event.exportFile dirpath filename ids, Event.deleteObjs ids])
  else
    (number, [Event.printError filename, Event.deleteObjs ids])

/-- Events of the object-creation steps of `create_object` (operator.py lines
105-147): new curve with properties, link the curve object, link the mesh
object, unlink the curve object, set origin, optionally reset location,
optionally decimate. -/
def creationEvents (host : Host) (text : List Char)
    (props : TextMeshCreatorProperties) : List Event :=
  [Event.newCurve text, Event.linkObj (host.curveId text),
   Event.linkObj (host.meshObj text).id, Event.unlinkObj (host.curveId text),
   Event.originSet (host.meshObj text).id]
  ++ (if props.center_to_origin then [Event.resetLocation (host.meshObj text).id] else [])
  ++ (if props.use_decimate then [Event.decimate (host.meshObj text).id props.decimate_ratio] else [])

/-- `TextMeshCreatorOperation.create_object` (operator.py lines 104-157):
create the object, then either separate by loose parts and (unless preview)
export the kept parts, or (unless preview) export the single object; in
preview mode return `number` unchanged right after creation/separation. -/
def create_object (host : Host) (number : Int) (text : List Char)
    (props : TextMeshCreatorProperties) : Int × List Event :=
  let f := host.meshObj text
  let creation := creationEvents host text props
  if props.separate_by_loose_parts then
    let sep := separate_by_loose_parts host f props.thickness
    if props.is_preview then (number, creation ++ sep.1)
    else
      let ex := export_object host number (String.mk text) props.export_path sep.2
      (ex.1, creation ++ sep.1 ++ ex.2)
  else
    if props.is_preview then (number, creation)
    else
      let ex := export_object host number (String.mk text) props.export_path [f]
      (ex.1, creation ++ ex.2)

/-- The driver loop of `execute` (operator.py lines 183-184):
`for character in characters: number = self.create_object(...)`. -/
def runUnits (host : Host) (props : TextMeshCreatorProperties) :
    Int → List (List Char) → Int × List Event
  | number, [] => (number, [])
  | number, c :: cs =>
    let r1 := create_object host number c props
    let r2 := runUnits host props r1.1 cs
    (r2.1, r1.2 ++ r2.2)

def fontErrorMsg : String := "Font file not found or invalid format."

/-- `TextMeshCreatorOperation.execute` (operator.py lines 159-186). The local
`font` is only assigned when `font_path.strip() != ""` and loading succeeds;
with a blank path it stays unbound, so the first `create_object` call raises
`UnboundLocalError`. Preview truncation `[characters[0]]` raises `IndexError`
on an empty partition. Font-load failure reports an error and cancels. -/
def execute (host : Host) (props : TextMeshCreatorProperties) : RunResult :=
  let number : Int := props.increment_from
  let fontConfigured : Bool := pyStrip props.font_path != []
  if fontConfigured && !host.fontLoadOk then
    RunResult.cancelled [Event.reportError fontErrorMsg]
  else
    let characters := partition props.separate_by props.strings
    if props.is_preview && characters.isEmpty then
      RunResult.error PyError.indexError []
    else
      let characters := if props.is_preview then [characters.headI] else characters
      if !characters.isEmpty && !fontConfigured then
        RunResult.error PyError.unboundLocalError []
      else
        let r := runUnits host props number characters
        RunResult.finished r.1 r.2

/-- Is this event a successful FBX file write? -/
def Event.isExportFile : Event → Bool
  | Event.exportFile _ _ _ => true
  | _ => false

/-- Is this event any export-step side effect (file write, export-error log,
or the export cleanup deletion)? -/
def Event.isExportEffect : Event → Bool
  | Event.exportFile _ _ _ => true
  | Event.printError _ => true
  | Event.deleteObjs _ => true
  | _ => false

/-- Is this event the creation of a unit's text curve (one per processed
generation unit)? -/
def Event.isNewCurve : Event → Bool
  | Event.newCurve _ => true
  | _ => false

/-- Number of successful exports recorded in a trace. -/
def countSuccess (t : List Event) : ℕ := (t.filter Event.isExportFile).length

/-- Number of generation units whose processing began, per the trace. -/
def countUnits (t : List Event) : ℕ := (t.filter Event.isNewCurve).length

/-- All events in the trace are free of export-step side effects. -/
def noExportEffects (t : List Event) : Bool :=
  t.all (fun e => !e.isExportEffect)

/-- Final counter value of a run result, when the run finished. -/
def numberOf : RunResult → Option Int
  | RunResult.finished n _ => some n
  | _ => none


/-- Identity world matrix. -/
def idAffine : Affine := ⟨1, 0, 0, 0, 1, 0, 0, 0, 1, 0, 0, 0⟩

/-- Eight identical bounding-box corners at a given point. -/
def bound8 (v : Vec3) : List Vec3 := [v, v, v, v, v, v, v, v]

/-- A concrete object whose world-space bounding-box center has y = 1/2. -/
def objPass : Obj := ⟨0, bound8 ⟨0, 1 / 2, 0⟩, idAffine⟩

/-- A second concrete object with center y = 1/2 and a distinct id. -/
def objPass2 : Obj := ⟨2, bound8 ⟨3, 1 / 2, 0⟩, idAffine⟩

/-- A concrete object whose world-space bounding-box center has y = 0. -/
def objFail : Obj := ⟨5, bound8 ⟨0, 0, 0⟩, idAffine⟩

/-- Concrete host on which every delegated operation succeeds. -/
def hostOk : Host :=
  { fontLoadOk := true, exportOk := fun _ => true, meshObj := fun _ => objPass,
    curveId := fun _ => 1, siblings := fun _ => [] }

/-- Concrete host on which every FBX export raises a RuntimeError. -/
def hostFail : Host :=
  { hostOk with exportOk := fun _ => false }

/-- Concrete host on which font loading fails. -/
def hostNoFont : Host :=
  { hostOk with fontLoadOk := false }

/-- Concrete host whose loose-part separation yields one passing sibling and
one failing sibling in addition to the original object. -/
def hostGeo : Host :=
  { hostOk with siblings := fun _ => [objPass2, objFail] }

/-- Concrete request: text "AB" split by character, preview off, exporting
to "out" starting at number 0, with extrusion thickness 1/2. -/
def propsAB : TextMeshCreatorProperties :=
  { strings := [ 'A', 'B' ], separate_by := SeparateBy.CHARACTER,
    font_path := [ 'F' ], is_preview := false, thickness := 1 / 2,
    horizontal_alignment := "CENTER", vertical_alignment := "CENTER",
    character_spacing := 1, word_spacing := 1,
    rotation_x := 0, rotation_y := 0, rotation_z := 0,
    scale_x := 1, scale_y := 1, scale_z := 1,
    center_to_origin := false, use_decimate := false, decimate_ratio := 1,
    separate_by_loose_parts := false, export_path := "out",
    increment_from := 0 }

/-- The concrete request in preview mode. -/
def propsPreview : TextMeshCreatorProperties :=
  { propsAB with is_preview := true }

/-- The concrete request with a blank font path. -/
def propsNoFont : TextMeshCreatorProperties :=
  { propsAB with font_path := [] }

/-- The concrete request in preview mode with an empty text in by-character
mode, so that partitioning yields zero units. -/
def propsEmptyPreview : TextMeshCreatorProperties :=
  { propsAB with strings := [], is_preview := true }

/-- The concrete request in preview mode with loose-part separation on. -/
def propsLoosePreview : TextMeshCreatorProperties :=
  { propsAB with is_preview := true, separate_by_loose_parts := true }

theorem countSuccess_append (a b : List Event) :
    countSuccess (a ++ b) = countSuccess a + countSuccess b := by
  simp [countSuccess, List.filter_append]

theorem noExportEffects_append (a b : List Event) :
    noExportEffects (a ++ b) = (noExportEffects a && noExportEffects b) := by
  simp [noExportEffects, List.all_append]

theorem countUnits_append (a b : List Event) :
    countUnits (a ++ b) = countUnits a + countUnits b := by
  simp [countUnits, List.filter_append]

theorem creationEvents_noExport (host : Host) (text : List Char)
    (props : TextMeshCreatorProperties) :
    noExportEffects (creationEvents host text props) = true := by
  cases hc : props.center_to_origin <;> cases hd : props.use_decimate <;>
    simp [creationEvents, noExportEffects, Event.isExportEffect, hc, hd]

theorem creationEvents_countSuccess (host : Host) (text : List Char)
    (props : TextMeshCreatorProperties) :
    countSuccess (creationEvents host text props) = 0 := by
  cases hc : props.center_to_origin <;> cases hd : props.use_decimate <;>
    simp [creationEvents, countSuccess, Event.isExportFile, hc, hd]

theorem creationEvents_countUnits (host : Host) (text : List Char)
    (props : TextMeshCreatorProperties) :
    countUnits (creationEvents host text props) = 1 := by
  cases hc : props.center_to_origin <;> cases hd : props.use_decimate <;>
    simp [creationEvents, countUnits, Event.isNewCurve, hc, hd]

theorem creationEvents_newCurve (host : Host) (text t : List Char)
    (props : TextMeshCreatorProperties)
    (h : Event.newCurve t ∈ creationEvents host text props) : t = text := by
  cases hc : props.center_to_origin <;> cases hd : props.use_decimate <;>
    simp_all [creationEvents, hc, hd]

theorem processCandidates_noExport (extrude : ℚ) (l : List Obj) :
    noExportEffects (processCandidates extrude l).1 = true := by
  induction l with
  | nil => rfl
  | cons o rest ih =>
    simp only [processCandidates]
    split <;> simp_all [noExportEffects, Event.isExportEffect]

theorem processCandidates_countSuccess (extrude : ℚ) (l : List Obj) :
    countSuccess (processCandidates extrude l).1 = 0 := by
  induction l with
  | nil => rfl
  | cons o rest ih =>
    simp only [processCandidates]
    split <;> simp_all [countSuccess, Event.isExportFile]

theorem processCandidates_countUnits (extrude : ℚ) (l : List Obj) :
    countUnits (processCandidates extrude l).1 = 0 := by
  induction l with
  | nil => rfl
  | cons o rest ih =>
    simp only [processCandidates]
    split <;> simp_all [countUnits, Event.isNewCurve]

theorem processCandidates_no_newCurve (extrude : ℚ) (l : List Obj)
    (t : List Char) : Event.newCurve t ∉ (processCandidates extrude l).1 := by
  induction l with
  | nil => simp [processCandidates]
  | cons o rest ih =>
    simp only [processCandidates]
    split <;> simp_all

theorem countSuccess_cons_false (e : Event) (t : List Event)
    (h : e.isExportFile = false) : countSuccess (e :: t) = countSuccess t := by
  simp [countSuccess, List.filter_cons, h]

theorem export_object_counter (host : Host) (number : Int) (name dirpath : String)
    (object : List Obj) :
    (export_object host number name dirpath object).1 =
      number + countSuccess (export_object host number name dirpath object).2 := by
  by_cases h : host.exportOk (fbxFilename number name) = true <;>
    simp [export_object, h, countSuccess, Event.isExportFile]

theorem sep_countSuccess (host : Host) (object : Obj) (extrude : ℚ) :
    countSuccess (separate_by_loose_parts host object extrude).1 = 0 := by
  simp only [separate_by_loose_parts]
  rw [countSuccess_cons_false (Event.meshSeparate object.id) _ rfl,
    processCandidates_countSuccess]

theorem create_object_counter (host : Host) (number : Int) (text : List Char)
    (props : TextMeshCreatorProperties) :
    (create_object host number text props).1 =
      number + countSuccess (create_object host number text props).2 := by
  by_cases hs : props.separate_by_loose_parts = true <;>
    by_cases hp : props.is_preview = true <;>
      simp only [create_object, hs, hp, Bool.not_eq_true] at * <;>
        simp only [if_true, if_false, ite_true, ite_false, Bool.false_eq_true]
  · rw [countSuccess_append, creationEvents_countSuccess, sep_countSuccess]
    simp
  · rw [countSuccess_append, countSuccess_append, creationEvents_countSuccess,
      sep_countSuccess, export_object_counter]
    simp
  · rw [creationEvents_countSuccess]
    simp
  · rw [countSuccess_append, creationEvents_countSuccess, export_object_counter]
    simp

theorem runUnits_counter (host : Host) (props : TextMeshCreatorProperties)
    (cs : List (List Char)) (number : Int) :
    (runUnits host props number cs).1 =
      number + countSuccess (runUnits host props number cs).2 := by
  induction cs generalizing number with
  | nil => simp [runUnits, countSuccess]
  | cons c rest ih =>
    simp only [runUnits, countSuccess_append]
    rw [ih, create_object_counter]
    push_cast
    ring

/-- C1: partitioning is deterministic and order-preserving. In CHARACTER mode
every unit is a single character and concatenating the units gives back the
text; in NONE mode the result is the single unit equal to the whole text; in
SPACE and TAB modes rejoining the units with the separator reinserted gives
back the text, and empty units are permitted (witnessed by a lone space
splitting into two empty units). -/
theorem C1_partition_reconstruct (text : List Char) :
    (∀ u ∈ partition SeparateBy.CHARACTER text, u.length = 1) ∧
    (partition SeparateBy.CHARACTER text).flatten = text ∧
    partition SeparateBy.NONE text = [text] ∧
    List.intercalate [' '] (partition SeparateBy.SPACE text) = text ∧
    List.intercalate ['\t'] (partition SeparateBy.TAB text) = text ∧
    partition SeparateBy.SPACE [' '] = [[], []] := by
  refine ⟨?_, ?_, rfl, ?_, ?_, by decide⟩
  · intro u hu
    simp only [partition, List.mem_map] at hu
    obtain ⟨c, _, rfl⟩ := hu
    rfl
  · induction text with
    | nil => rfl
    | cons c cs ih =>
      simpa [partition] using ih
  · exact List.intercalate_splitOn text ' '
  · exact List.intercalate_splitOn text '\t'

/-- C1 witness: the theorem applied at the text \"a b\". -/
theorem C1_partition_reconstruct_witness :
    List.intercalate [' '] (partition SeparateBy.SPACE [ 'a', ' ', 'b' ]) =
      [ 'a', ' ', 'b' ] :=
  (C1_partition_reconstruct [ 'a', ' ', 'b' ]).2.2.2.1

/-- C2: a successful export returns number + 1; a failed export logs the
error and returns number unchanged; hence over the driver loop the counter
equals its start plus one per successful export (zero per failed one) and
never decreases. -/
theorem C2_export_counter (host : Host) (number : Int) (name dirpath : String)
    (object : List Obj) (props : TextMeshCreatorProperties)
    (cs : List (List Char)) :
    ((export_object host number name dirpath object).1 =
      if host.exportOk (fbxFilename number name) then number + 1 else number) ∧
    (host.exportOk (fbxFilename number name) = false →
      Event.printError (fbxFilename number name) ∈
        (export_object host number name dirpath object).2) ∧
    number ≤ (export_object host number name dirpath object).1 ∧
    (runUnits host props number cs).1 =
      number + countSuccess (runUnits host props number cs).2 ∧
    number ≤ (runUnits host props number cs).1 := by
  refine ⟨?_, ?_, ?_, runUnits_counter host props cs number, ?_⟩
  · by_cases h : host.exportOk (fbxFilename number name) = true <;>
      simp [export_object, h]
  · intro h
    simp [export_object, h]
  · by_cases h : host.exportOk (fbxFilename number name) = true <;>
      simp [export_object, h]
  · rw [runUnits_counter host props cs number]
    omega

/-- C2 witness: the theorem applied with the all-failing host at number 0 and
name \"A\": the counter stays 0 and the error is logged. -/
theorem C2_export_counter_witness :
    (export_object hostFail 0 "A" "out" []).1 = 0 ∧
    Event.printError "0-A.fbx" ∈ (export_object hostFail 0 "A" "out" []).2 := by
  have h := C2_export_counter hostFail 0 "A" "out" [] propsAB []
  refine ⟨?_, h.2.1 rfl⟩
  have h1 := h.1
  simpa [hostFail, hostOk] using h1

theorem mem_processCandidates (extrude : ℚ) (l : List Obj) (o : Obj) :
    o ∈ (processCandidates extrude l).2 ↔
      o ∈ l ∧ mathIsclose (originOf o).y extrude = true := by
  induction l with
  | nil => simp [processCandidates]
  | cons a rest ih =>
    simp only [processCandidates]
    by_cases h : mathIsclose (originOf a).y extrude = true <;>
      simp only [h, if_true, if_false, ite_true, ite_false, Bool.false_eq_true,
        List.mem_cons] <;> constructor
    · rintro (rfl | hm)
      · exact ⟨Or.inl rfl, h⟩
      · exact ⟨Or.inr (ih.mp hm).1, (ih.mp hm).2⟩
    · rintro ⟨rfl | hm, hc⟩
      · exact Or.inl rfl
      · exact Or.inr (ih.mpr ⟨hm, hc⟩)
    · intro hm
      exact ⟨Or.inr (ih.mp hm).1, (ih.mp hm).2⟩
    · rintro ⟨rfl | hm, hc⟩
      · exact absurd hc h
      · exact ih.mpr ⟨hm, hc⟩

theorem unlink_processCandidates (extrude : ℚ) (l : List Obj) (o : Obj)
    (hm : o ∈ l) (hc : mathIsclose (originOf o).y extrude = false) :
    Event.unlinkObj o.id ∈ (processCandidates extrude l).1 := by
  induction l with
  | nil => simp at hm
  | cons a rest ih =>
    simp only [processCandidates]
    rcases List.mem_cons.mp hm with rfl | hm'
    · rw [hc]
      simp
    · by_cases h : mathIsclose (originOf a).y extrude = true <;>
        simp [h, ih hm']

theorem solidify_processCandidates (extrude : ℚ) (l : List Obj) (o : Obj)
    (hm : o ∈ (processCandidates extrude l).2) :
    Event.solidify o.id (extrude * 2) ∈ (processCandidates extrude l).1 := by
  induction l with
  | nil => simp [processCandidates] at hm
  | cons a rest ih =>
    simp only [processCandidates] at hm ⊢
    by_cases h : mathIsclose (originOf a).y extrude = true
    · rw [h] at hm ⊢
      simp only [ite_true, List.mem_cons] at hm ⊢
      rcases hm with rfl | hm'
      · exact Or.inl rfl
      · exact Or.inr (ih hm')
    · simp only [h] at hm ⊢
      simp only [Bool.false_eq_true, ite_false, List.mem_cons] at hm ⊢
      exact Or.inr (ih hm)

/-- C3: a loose-part candidate is kept iff the y coordinate of its
world-space bounding-box center is isclose (rel tol 1e-5) to the extrusion
thickness; every discarded candidate is unlinked from the scene; every kept
candidate gets a solidify of thickness twice the extrusion applied before
being returned. -/
theorem C3_loose_part_filter (host : Host) (object : Obj) (extrude : ℚ) :
    (∀ o, o ∈ (separate_by_loose_parts host object extrude).2 ↔
      o ∈ object :: host.siblings object.id ∧
        mathIsclose (originOf o).y extrude = true) ∧
    (∀ o ∈ object :: host.siblings object.id,
      mathIsclose (originOf o).y extrude = false →
        Event.unlinkObj o.id ∈ (separate_by_loose_parts host object extrude).1) ∧
    (∀ o ∈ (separate_by_loose_parts host object extrude).2,
      Event.solidify o.id (extrude * 2) ∈
        (separate_by_loose_parts host object extrude).1) := by
  refine ⟨?_, ?_, ?_⟩
  · intro o
    simpa [separate_by_loose_parts] using
      mem_processCandidates extrude (object :: host.siblings object.id) o
  · intro o hm hc
    simp only [separate_by_loose_parts, List.mem_cons]
    exact Or.inr (unlink_processCandidates extrude _ o hm hc)
  · intro o hm
    simp only [separate_by_loose_parts] at hm ⊢
    simp only [List.mem_cons]
    exact Or.inr (solidify_processCandidates extrude _ o hm)

/-- C3 witness: on the concrete host whose separation yields the original
passing object, a passing sibling and a failing sibling with extrusion 1/2,
the original object is kept, the failing sibling is unlinked, and the kept
object receives a solidify of thickness 1. -/
theorem C3_loose_part_filter_witness :
    objPass ∈ (separate_by_loose_parts hostGeo objPass (1 / 2)).2 ∧
    Event.unlinkObj 5 ∈ (separate_by_loose_parts hostGeo objPass (1 / 2)).1 ∧
    Event.solidify 0 (1 / 2 * 2) ∈ (separate_by_loose_parts hostGeo objPass (1 / 2)).1 := by
  have h := C3_loose_part_filter hostGeo objPass (1 / 2)
  have hpass : mathIsclose (originOf objPass).y (1 / 2) = true := by
    norm_num [mathIsclose, originOf, boundCenter, bound8, objPass, idAffine,
      Affine.apply, Vec3.add, Vec3.zero, Vec3.smul]
  have hfail : mathIsclose (originOf objFail).y (1 / 2) = false := by
    norm_num [mathIsclose, originOf, boundCenter, bound8, objFail, idAffine,
      Affine.apply, Vec3.add, Vec3.zero, Vec3.smul]
  have hkept : objPass ∈ (separate_by_loose_parts hostGeo objPass (1 / 2)).2 :=
    (h.1 objPass).mpr ⟨List.mem_cons_self objPass _, hpass⟩
  exact ⟨hkept, h.2.1 objFail (by simp [hostGeo, hostOk]) hfail, h.2.2 objPass hkept⟩

/-- C4: the cleanup deletion of the given scene objects runs unconditionally
in `export_object`, whether the FBX export succeeds or raises: the deletion
event is in the trace in both cases (the `finally` block). -/
theorem C4_cleanup_always (host : Host) (number : Int) (name dirpath : String)
    (object : List Obj) :
    Event.deleteObjs (object.map Obj.id) ∈
      (export_object host number name dirpath object).2 := by
  by_cases h : host.exportOk (fbxFilename number name) = true <;>
    simp [export_object, h]

/-- C5, evaluated at the failing input: with a blank font path and the text
\"AB\", the local `font` is never assigned, so the run raises
UnboundLocalError before any unit is processed: no default-font run occurs. -/
theorem C5_blank_font_path_crash :
    execute hostOk propsNoFont = RunResult.error PyError.unboundLocalError [] ∧
    countUnits (traceOf (execute hostOk propsNoFont)) = 0 ∧
    countSuccess (traceOf (execute hostOk propsNoFont)) = 0 :=
  ⟨rfl, rfl, rfl⟩

theorem noExportEffects_cons (e : Event) (t : List Event) :
    noExportEffects (e :: t) = (!e.isExportEffect && noExportEffects t) := by
  simp [noExportEffects]

theorem countUnits_cons_false (e : Event) (t : List Event)
    (h : e.isNewCurve = false) : countUnits (e :: t) = countUnits t := by
  simp [countUnits, List.filter_cons, h]

theorem sep_noExport (host : Host) (object : Obj) (extrude : ℚ) :
    noExportEffects (separate_by_loose_parts host object extrude).1 = true := by
  simp only [separate_by_loose_parts, noExportEffects_cons,
    processCandidates_noExport]
  rfl

theorem sep_countUnits (host : Host) (object : Obj) (extrude : ℚ) :
    countUnits (separate_by_loose_parts host object extrude).1 = 0 := by
  simp only [separate_by_loose_parts]
  rw [countUnits_cons_false (Event.meshSeparate object.id) _ rfl,
    processCandidates_countUnits]

theorem sep_no_newCurve (host : Host) (object : Obj) (extrude : ℚ)
    (t : List Char) :
    Event.newCurve t ∉ (separate_by_loose_parts host object extrude).1 := by
  simp only [separate_by_loose_parts, List.mem_cons]
  rintro (h | h)
  · exact Event.noConfusion h
  · exact processCandidates_no_newCurve extrude _ t h

theorem create_object_preview (host : Host) (number : Int) (text : List Char)
    (props : TextMeshCreatorProperties) (h : props.is_preview = true) :
    (create_object host number text props).1 = number ∧
    (create_object host number text props).2 =
      creationEvents host text props ++
        (if props.separate_by_loose_parts then
          (separate_by_loose_parts host (host.meshObj text) props.thickness).1
        else []) := by
  by_cases hs : props.separate_by_loose_parts = true <;>
    simp [create_object, h, hs]

/-- C7: in preview mode at most one generation unit (the first partition
unit) is processed and the trace contains no export side effects (no file
write, no export-error log, no export cleanup deletion). -/
theorem C7_preview_at_most_one_unit (host : Host)
    (props : TextMeshCreatorProperties) (h : props.is_preview = true) :
    countUnits (traceOf (execute host props)) ≤ 1 ∧
    noExportEffects (traceOf (execute host props)) = true ∧
    ∀ t, Event.newCurve t ∈ traceOf (execute host props) →
      t = (partition props.separate_by props.strings).headI := by
  simp only [execute]
  by_cases hf : ((pyStrip props.font_path != []) && !host.fontLoadOk) = true
  · simp only [hf, if_true, ite_true]
    exact ⟨by decide, rfl, by simp [traceOf]⟩
  · simp only [hf, Bool.false_eq_true, if_false, ite_false, h]
    by_cases he : (partition props.separate_by props.strings).isEmpty = true
    · simp only [he, Bool.true_and, if_true, ite_true]
      exact ⟨by decide, rfl, by simp [traceOf]⟩
    · simp only [he, Bool.true_and, Bool.false_eq_true, if_false, ite_false,
        ite_true, List.isEmpty_cons, Bool.not_false]
      by_cases hfc : (pyStrip props.font_path != []) = true
      · simp only [hfc, Bool.not_true, Bool.and_false, Bool.false_eq_true,
          if_false, ite_false]
        have hco := create_object_preview host props.increment_from
          (partition props.separate_by props.strings).headI props h
        simp only [runUnits, List.append_nil, traceOf, hco.2]
        by_cases hs : props.separate_by_loose_parts = true <;>
          simp only [hs, if_true, if_false, ite_true, ite_false,
            Bool.false_eq_true, List.append_nil]
        · refine ⟨?_, ?_, ?_⟩
          · rw [countUnits_append, creationEvents_countUnits, sep_countUnits]
          · rw [noExportEffects_append, creationEvents_noExport, sep_noExport]
            rfl
          · intro t ht
            rcases List.mem_append.mp ht with hm | hm
            · exact creationEvents_newCurve host _ t props hm
            · exact absurd hm (sep_no_newCurve host _ props.thickness t)
        · refine ⟨?_, ?_, ?_⟩
          · rw [creationEvents_countUnits]
          · rw [creationEvents_noExport]
          · intro t ht
            exact creationEvents_newCurve host _ t props ht
      · simp only [hfc, Bool.not_false, Bool.and_true, Bool.false_eq_true,
          if_true, ite_true]
        exact ⟨by decide, rfl, by simp [traceOf]⟩

/-- C7 witness: the theorem applied to the concrete preview run on text
\"AB\": its trace contains no export side effect. -/
theorem C7_preview_witness :
    noExportEffects (traceOf (execute hostOk propsPreview)) = true :=
  (C7_preview_at_most_one_unit hostOk propsPreview rfl).2.1

/-- C6: with a non-empty (after stripping) font path whose load fails, the
run reports the font error and is cancelled before partitioning: the trace is
exactly the error report, so zero units are processed, zero objects created
and zero files produced. -/
theorem C6_font_load_failure (host : Host) (props : TextMeshCreatorProperties)
    (h1 : pyStrip props.font_path ≠ []) (h2 : host.fontLoadOk = false) :
    execute host props = RunResult.cancelled [Event.reportError fontErrorMsg] ∧
    countUnits (traceOf (execute host props)) = 0 ∧
    countSuccess (traceOf (execute host props)) = 0 := by
  have hcond : (pyStrip props.font_path != []) = true := by
    simpa using h1
  have hex : execute host props =
      RunResult.cancelled [Event.reportError fontErrorMsg] := by
    simp [execute, hcond, h2]
  exact ⟨hex, by rw [hex]; rfl, by rw [hex]; rfl⟩

/-- C6 witness: the theorem applied to the concrete host whose font load
fails, with the concrete request whose font path is \"F\". -/
theorem C6_font_load_failure_witness :
    execute hostNoFont propsAB =
      RunResult.cancelled [Event.reportError fontErrorMsg] :=
  (C6_font_load_failure hostNoFont propsAB (by decide) rfl).1

/-- C8: every export writes the file `number-name.fbx` (counter, hyphen,
display name, extension) into the output directory; concretely, for text
\"AB\" split by character with preview off and starting number 0, the run
performs exactly the two exports \"0-A.fbx\" then \"1-B.fbx\" into the output
directory, in that order, and the counter ends at 2. -/
theorem C8_export_filenames :
    (∀ (host : Host) (number : Int) (name dirpath : String) (objs : List Obj),
      host.exportOk (fbxFilename number name) = true →
        Event.exportFile dirpath (toString number ++ "-" ++ name ++ ".fbx")
            (objs.map Obj.id) ∈
          (export_object host number name dirpath objs).2) ∧
    (traceOf (execute hostOk propsAB)).filter Event.isExportFile =
      [Event.exportFile "out" "0-A.fbx" [ 0 ],
       Event.exportFile "out" "1-B.fbx" [ 0 ]] ∧
    numberOf (execute hostOk propsAB) = some 2 := by
  refine ⟨?_, rfl, rfl⟩
  intro host number name dirpath objs h
  simp only [fbxFilename] at h
  simp [export_object, h, fbxFilename]

/-- C8 witness: the theorem's general filename clause applied to the
all-succeeding host at number 5 and name \"B\". -/
theorem C8_export_filenames_witness :
    Event.exportFile "dir" "5-B.fbx" [] ∈
      (export_object hostOk 5 "B" "dir" []).2 := by
  have h := C8_export_filenames.1 hostOk 5 "B" "dir" [] rfl
  simpa using h

/-- C9: a preview run whose partitioning yields zero units (the text is empty
and the mode is by-character, and the run is not cancelled earlier by a font
failure) hits the unguarded `characters[0]` and raises IndexError before any
unit is processed. -/
theorem C9_preview_empty_crash (host : Host)
    (props : TextMeshCreatorProperties) (h1 : props.is_preview = true)
    (h2 : partition props.separate_by props.strings = [])
    (h3 : pyStrip props.font_path = [] ∨ host.fontLoadOk = true) :
    execute host props = RunResult.error PyError.indexError [] ∧
    countUnits (traceOf (execute host props)) = 0 := by
  have hf : ((pyStrip props.font_path != []) && !host.fontLoadOk) = false := by
    rcases h3 with h3 | h3 <;> simp [h3]
  have hex : execute host props = RunResult.error PyError.indexError [] := by
    simp [execute, hf, h1, h2]
  exact ⟨hex, by rw [hex]; rfl⟩

/-- C9 witness: the theorem applied to the concrete preview request with
empty text in by-character mode on the all-succeeding host. -/
theorem C9_preview_empty_crash_witness :
    execute hostOk propsEmptyPreview = RunResult.error PyError.indexError [] :=
  (C9_preview_empty_crash hostOk propsEmptyPreview rfl rfl (Or.inr rfl)).1

/-- C10: in a preview run with loose-part separation enabled (and a usable
font and at least one unit), the separation, the position filter with its
unlinking of discarded candidates, and the solidify bake all run on the first
unit's object before the preview early-return: the final trace is exactly the
creation events followed by the whole separation trace, and no export side
effect occurs. -/
theorem C10_preview_loose_parts (host : Host)
    (props : TextMeshCreatorProperties) (h1 : props.is_preview = true)
    (h2 : props.separate_by_loose_parts = true)
    (h3 : pyStrip props.font_path ≠ []) (h4 : host.fontLoadOk = true)
    (h5 : partition props.separate_by props.strings ≠ []) :
    execute host props = RunResult.finished props.increment_from
      (creationEvents host (partition props.separate_by props.strings).headI
          props ++
        (separate_by_loose_parts host
          (host.meshObj (partition props.separate_by props.strings).headI)
          props.thickness).1) ∧
    Event.meshSeparate
        (host.meshObj (partition props.separate_by props.strings).headI).id ∈
      traceOf (execute host props) ∧
    noExportEffects (traceOf (execute host props)) = true := by
  have hcond : (pyStrip props.font_path != []) = true := by
    simpa using h3
  have hf : ((pyStrip props.font_path != []) && !host.fontLoadOk) = false := by
    simp [hcond, h4]
  have hne : (partition props.separate_by props.strings).isEmpty = false := by
    simpa [List.isEmpty_iff] using h5
  have hco := create_object_preview host props.increment_from
    (partition props.separate_by props.strings).headI props h1
  have hval : create_object host props.increment_from
      (partition props.separate_by props.strings).headI props =
      (props.increment_from,
        creationEvents host (partition props.separate_by props.strings).headI
            props ++
          (separate_by_loose_parts host
            (host.meshObj (partition props.separate_by props.strings).headI)
            props.thickness).1) :=
    Prod.ext_iff.mpr ⟨hco.1, by rw [hco.2, h2]; simp⟩
  have hex : execute host props = RunResult.finished props.increment_from
      (creationEvents host (partition props.separate_by props.strings).headI
          props ++
        (separate_by_loose_parts host
          (host.meshObj (partition props.separate_by props.strings).headI)
          props.thickness).1) := by
    simp [execute, hf, h1, h4, hne, hcond, runUnits, hval]
  refine ⟨hex, ?_, ?_⟩
  · rw [hex]
    simp [traceOf, separate_by_loose_parts]
  · rw [hex]
    simp only [traceOf]
    rw [noExportEffects_append, creationEvents_noExport, sep_noExport]
    rfl

/-- C10 witness: on the concrete geometry host, the preview run with
loose-part separation performs the mesh-separate step on the first unit's
object (id 0). -/
theorem C10_preview_loose_parts_witness :
    Event.meshSeparate 0 ∈ traceOf (execute hostGeo propsLoosePreview) := by
  have h := C10_preview_loose_parts hostGeo propsLoosePreview rfl rfl
    (by decide) rfl (by decide)
  simpa [hostGeo, hostOk, objPass] using h.2.1
